import Mathlib

/-!
Verification development for the solara date-picker components
(`src/solara/lab/components/datepicker.py` and
`src/solara/lab/components/input_date.py`).

The four components (`DatePicker`, `DateRangePicker`, `InputDate`,
`InputDateRange`) couple an externally owned date (or date-list) reference to
a text field and a calendar widget.  Their edit handlers delegate string to
date conversion to Python's `datetime.datetime.strptime` and the display
conversion to `datetime.date.strftime`.  This file embeds:

* a model of calendar dates (`Date`) with the validity rule enforced by the
  `datetime.date` constructor;
* a model of format patterns (`FmtPat`) as token sequences, covering the
  directives the components use (`%Y`, `%m`, `%d`) plus the sub-day
  directives (`%H`, `%M`, `%S`) needed to state precision side conditions,
  with `strftime`/`strptime` following Python's documented semantics
  (zero-padded rendering; parsing by the ordered field regexes of CPython's
  `_strptime.TimeRE`, sequentially without backtracking — the two agree on
  every string produced by `strftime` and on the separator-delimited
  patterns the components use);
* the state and the edit handlers of the four components, translated line by
  line from the source.
-/

/-- A calendar date: year, month and day, no time component, mirroring
`datetime.date`. Replaced wholesale on every change, never mutated. -/
structure Date where
  year : Nat
  month : Nat
  day : Nat
deriving DecidableEq, Repr

/-- Gregorian leap-year rule used by `datetime.date`. -/
def isLeapYear (y : Nat) : Bool :=
  (y % 4 == 0 && y % 100 != 0) || y % 400 == 0

/-- Number of days of month `m` in year `y`. -/
def daysInMonth (y m : Nat) : Nat :=
  if m = 2 then (if isLeapYear y then 29 else 28)
  else if m = 4 ∨ m = 6 ∨ m = 9 ∨ m = 11 then 30
  else 31

/-- Validity exactly as enforced by the `datetime.date` constructor
(`MINYEAR = 1`, `MAXYEAR = 9999`, day within the month). -/
def Date.valid (dt : Date) : Bool :=
  decide (1 ≤ dt.year) && decide (dt.year ≤ 9999)
    && decide (1 ≤ dt.month) && decide (dt.month ≤ 12)
    && decide (1 ≤ dt.day) && decide (dt.day ≤ daysInMonth dt.year dt.month)

/-- Tokens of a strftime/strptime pattern: literal characters and the date
directives `%Y`, `%m`, `%d`, plus the sub-day directives `%H`, `%M`, `%S`.
A Python pattern string such as `"%Y-%m-%d"` is represented by its token
sequence. -/
inductive FmtTok where
  | lit (c : Char)
  | Y | m | d | H | M | S
deriving DecidableEq, Repr

/-- A format pattern is a sequence of tokens. -/
abbrev FmtPat := List FmtTok

/-- Whether a token is a sub-day (time-of-day) directive. -/
def FmtTok.isSubDay : FmtTok → Bool
  | .H => true
  | .M => true
  | .S => true
  | _ => false

/-- Whether a pattern has sub-day precision. -/
def patHasSubDay (p : FmtPat) : Bool := p.any FmtTok.isSubDay

/-- The decimal digit character for `n < 10`. -/
def digitChar (n : Nat) : Char := Char.ofNat (48 + n)

/-- The numeric value of a digit character. -/
def digitVal (c : Char) : Nat := c.toNat - 48

/-- Whether a character is a decimal digit (the `\d` class of the
`_strptime` regexes on these inputs). -/
def isDigitC (c : Char) : Bool := decide ('0' ≤ c) && decide (c ≤ '9')

/-- Zero-padded two-digit rendering (`%m`, `%d`, `%H`, `%M`, `%S`). -/
def pad2 (n : Nat) : List Char := [digitChar (n / 10 % 10), digitChar (n % 10)]

/-- Zero-padded four-digit rendering (`%Y`, per the documented
`strftime` behaviour `0001, 0002, ..., 2014`). -/
def pad4 (n : Nat) : List Char :=
  [digitChar (n / 1000 % 10), digitChar (n / 100 % 10),
    digitChar (n / 10 % 10), digitChar (n % 10)]

/-- `strftime` of a single directive on a pure date.  A `datetime.date` has
hours, minutes and seconds equal to zero, so the sub-day directives render
as `00`. -/
def fmtTok (dt : Date) : FmtTok → List Char
  | .lit c => [c]
  | .Y => pad4 dt.year
  | .m => pad2 dt.month
  | .d => pad2 dt.day
  | .H => ['0', '0']
  | .M => ['0', '0']
  | .S => ['0', '0']

/-- `strftime` of a whole pattern, as a character list. -/
def fmtChars (dt : Date) : FmtPat → List Char
  | [] => []
  | t :: p => fmtTok dt t ++ fmtChars dt p

/-- `date.strftime(pattern)`. -/
def strftime (dt : Date) (p : FmtPat) : String := String.mk (fmtChars dt p)

/-- Field matcher shared by `%m`, `%d`, `%H`, `%M`, `%S`: the ordered
alternation of CPython's `_strptime.TimeRE` (for example
`1[0-2]|0[1-9]|[1-9]` for `%m`) matches a two-digit value in
`[lo, hi]` first, then falls back to a single digit that is at least
`lo`. -/
def matchField (lo hi : Nat) : List Char → Option (Nat × List Char)
  | c1 :: c2 :: rest =>
    if isDigitC c1 && isDigitC c2
        && decide (lo ≤ digitVal c1 * 10 + digitVal c2)
        && decide (digitVal c1 * 10 + digitVal c2 ≤ hi) then
      some (digitVal c1 * 10 + digitVal c2, rest)
    else if isDigitC c1 && decide (lo ≤ digitVal c1) then
      some (digitVal c1, c2 :: rest)
    else none
  | [c1] =>
    if isDigitC c1 && decide (lo ≤ digitVal c1) then some (digitVal c1, [])
    else none
  | [] => none

/-- `%Y` matcher: exactly four digits (`\d\d\d\d` in `_strptime.TimeRE`). -/
def matchY : List Char → Option (Nat × List Char)
  | c1 :: c2 :: c3 :: c4 :: rest =>
    if isDigitC c1 && isDigitC c2 && isDigitC c3 && isDigitC c4 then
      some (((digitVal c1 * 10 + digitVal c2) * 10 + digitVal c3) * 10
        + digitVal c4, rest)
    else none
  | _ => none

/-- Matcher of one pattern token against the head of the input. Returns the
numeric field value (0 for a literal) and the remaining input. -/
def matchTok : FmtTok → List Char → Option (Nat × List Char)
  | .lit c, c' :: rest => if c' = c then some (0, rest) else none
  | .lit _, [] => none
  | .Y, cs => matchY cs
  | .m, cs => matchField 1 12 cs
  | .d, cs => matchField 1 31 cs
  | .H, cs => matchField 0 23 cs
  | .M, cs => matchField 0 59 cs
  | .S, cs => matchField 0 61 cs

/-- The date fields accumulated while parsing; `strptime` defaults the
missing fields to 1900-01-01. -/
structure ParseFields where
  year : Nat
  month : Nat
  day : Nat
deriving DecidableEq, Repr

/-- Store a matched field value (sub-day values are dropped because the
result is converted with `.date()`). -/
def setField (t : FmtTok) (v : Nat) (f : ParseFields) : ParseFields :=
  match t with
  | .Y => { f with year := v }
  | .m => { f with month := v }
  | .d => { f with day := v }
  | _ => f

/-- Sequentially match the pattern against the input; all input must be
consumed (`strptime` raises on unconverted data). -/
def runParse : FmtPat → List Char → ParseFields → Option ParseFields
  | [], [], f => some f
  | [], _ :: _, _ => none
  | t :: p, cs, f =>
    match matchTok t cs with
    | none => none
    | some vr => runParse p vr.2 (setField t vr.1 f)

/-- `datetime.datetime.strptime(s, pattern).date()`: match the pattern,
default missing fields to 1900-01-01, then construct the date (which
checks validity; any failure is a `ValueError`, reported here as `none`). -/
def strptime (s : String) (p : FmtPat) : Option Date :=
  match runParse p s.data ⟨1900, 1, 1⟩ with
  | none => none
  | some f =>
    let dt : Date := ⟨f.year, f.month, f.day⟩
    if dt.valid then some dt else none

/-- The wire pattern `"%Y-%m-%d"` hard-coded in `InputDate.set_date_cast`
and `InputDateRange.set_dates_cast`. -/
def isoPat : FmtPat := [.Y, .lit '-', .m, .lit '-', .d]

/-- The default `date_format` of `InputDate`/`InputDateRange`,
`"%Y/%m/%d"`. -/
def slashPat : FmtPat := [.Y, .lit '/', .m, .lit '/', .d]

/-- The parse exception (`ValueError` in Python, `FormatError` in the
spec's vocabulary): the edit string does not match the pattern or encodes
an invalid calendar date. -/
inductive FormatError where
  | formatError
deriving DecidableEq, Repr

instance {e a : Type} [DecidableEq e] [DecidableEq a] : DecidableEq (Except e a) :=
  fun x y =>
    match x, y with
    | .ok u, .ok v =>
      match decEq u v with
      | .isTrue h => .isTrue (h ▸ rfl)
      | .isFalse h => .isFalse (fun he => h (Except.ok.inj he))
    | .error u, .error v =>
      match decEq u v with
      | .isTrue h => .isTrue (h ▸ rfl)
      | .isFalse h => .isFalse (fun he => h (Except.error.inj he))
    | .ok _, .error _ => .isFalse (fun he => Except.noConfusion he)
    | .error _, .ok _ => .isFalse (fun he => Except.noConfusion he)

/-- Parse each string of a widget-reported sequence, in order
(the list comprehension in `set_dates_cast`); the first failure aborts
with the whole list unconverted. -/
def parseAll (p : FmtPat) : List String → Option (List Date)
  | [] => some []
  | s :: ss =>
    match strptime s p with
    | none => none
    | some dt => (parseAll p ss).map (fun ds => dt :: ds)

/-- `" - ".join(strings)`, exactly Python's `str.join`. -/
def joinSep : List String → String
  | [] => ""
  | [s] => s
  | s :: ss => s ++ " - " ++ joinSep ss

/-- The state a handler leaves behind: the new state on success, the state
immediately before the attempt when the exception propagated. -/
def afterEvent {σ : Type} (st : σ) : Except FormatError σ → σ
  | .ok st' => st'
  | .error _ => st

/-- A reactive cell as created by `solara.use_reactive` from a plain value:
the current value together with the argument seen at the previous render
(the memo dependency). -/
structure ReactiveCell (α : Type) where
  value : α
  lastArg : α
deriving DecidableEq, Repr

/-- `reactive.set(v)` / `reactive.value = v`: replaces the value. -/
def ReactiveCell.set {α : Type} (c : ReactiveCell α) (v : α) : ReactiveCell α :=
  { c with value := v }

/-- Modelled from the spec: `solara.use_reactive` is repository code outside
`src/`.  Per the consumed reactive-state container of spec section 6 and the
derived-DisplayString mandate of sections 3 and 5 (recomputed whenever the
external reference changes), a cell created from a plain value re-synchronizes
to the argument computed at a render whenever that argument differs from the
previous render's argument, and is left untouched otherwise. -/
def useReactiveStep {α : Type} [DecidableEq α] (c : ReactiveCell α) (arg : α) :
    ReactiveCell α :=
  if arg = c.lastArg then c else { value := arg, lastArg := arg }

/-- Modelled from the spec: the text-input display primitive of section 6
(`v.TextField`, outside `src/`) with its value/read-only/icon configuration;
a construction that omits `readonly` leaves the field editable
(section 4.4's "editable ... per observed behavior"). -/
structure TextField where
  label : String
  value : Option String
  append_icon : String := "mdi-calendar"
  readonly : Bool := false
  style_ : String := ""
deriving DecidableEq, Repr

/-- Modelled from the spec: the popup/overlay primitive of section 6
(`solara.lab.Menu`, outside `src/`) records its `closeOnContentClick`
configuration. -/
structure MenuConfig where
  close_on_content_click : Bool
deriving DecidableEq, Repr

/-- State of a mounted `DatePicker`: the external date reference and the
overlay flag.  Its displayed string (`date_str`, line 53) is a local
recomputed on every render, so it is not part of the state. -/
structure DatePickerState where
  date : Option Date
  isOpen : Bool
deriving DecidableEq, Repr

/-- `DatePicker.set_date_cast` (datepicker.py lines 57-59): parse the edit
with the caller-configured `date_format`, then write the external
reference; a parse failure raises before the write. -/
def DatePicker.set_date_cast (date_format : FmtPat) (value : String)
    (st : DatePickerState) : Except FormatError DatePickerState :=
  match strptime value date_format with
  | none => .error .formatError
  | some date_value => .ok { st with date := some date_value }

/-- `date_str` (datepicker.py line 53): the external date formatted with
`date_format`, or Python `None` when the date is absent. -/
def DatePicker.date_str (date : Option Date) (date_format : FmtPat) :
    Option String :=
  date.map (fun dt => strftime dt date_format)

/-- The `v.TextField` of `DatePicker` (lines 61-67): `readonly=True`. -/
def DatePicker.input (st : DatePickerState) (date_format : FmtPat) : TextField :=
  { label := "Test", value := DatePicker.date_str st.date date_format,
    readonly := true }

/-- The `Menu` of `DatePicker` (lines 68-72): `close_on_content_click=False`. -/
def DatePicker.menu : MenuConfig := { close_on_content_click := false }

/-- State of a mounted `InputDate`: the external reference, the `date_str`
reactive cell (line 67) and the overlay flag. -/
structure InputDateState where
  value : Option Date
  dateStr : ReactiveCell (Option String)
  isOpen : Bool
deriving DecidableEq, Repr

/-- `str_and_format` (input_date.py lines 64-65): format the external value
with `date_format`, or Python `None` when it is absent. -/
def InputDate.str_and_format (value : Option Date) (date_format : FmtPat) :
    Option String :=
  value.map (fun dt => strftime dt date_format)

/-- `InputDate.set_date_cast` (input_date.py lines 72-75): parse the edit
with the hard-coded wire pattern `"%Y-%m-%d"`, write the external
reference, then set `date_str` from the freshly written value formatted
with `date_format`; a parse failure raises before either write. -/
def InputDate.set_date_cast (date_format : FmtPat) (new_value : String)
    (st : InputDateState) : Except FormatError InputDateState :=
  match strptime new_value isoPat with
  | none => .error .formatError
  | some date_value =>
    .ok { st with
      value := some date_value,
      dateStr :=
        st.dateStr.set (InputDate.str_and_format (some date_value) date_format) }

/-- A render of `InputDate` (line 67): `date_str` passes through
`use_reactive` with the freshly computed `str_and_format()` argument. -/
def InputDate.render (date_format : FmtPat) (st : InputDateState) :
    InputDateState :=
  { st with
    dateStr := useReactiveStep st.dateStr
      (InputDate.str_and_format st.value date_format) }

/-- First mount of `InputDate`: the cell is seeded from the initial
`str_and_format()` argument. -/
def InputDate.mount (date_format : FmtPat) (v : Option Date) (opn : Bool) :
    InputDateState :=
  { value := v,
    dateStr := ⟨InputDate.str_and_format v date_format,
      InputDate.str_and_format v date_format⟩,
    isOpen := opn }

/-- An external write to the shared reference (for example by another
mounted instance): only the reference changes. -/
def InputDate.setExternal (v : Option Date) (st : InputDateState) :
    InputDateState :=
  { st with value := v }

/-- The `v.TextField` of `InputDate` (lines 77-83): no `readonly`
configuration, hence editable. -/
def InputDate.input (label : String) (st : InputDateState) : TextField :=
  { label := label, value := st.dateStr.value }

/-- The `Menu` of `InputDate` (lines 84-88): `close_on_content_click=False`. -/
def InputDate.menu : MenuConfig := { close_on_content_click := false }

/-- State of a mounted `DateRangePicker`: the external list reference and
the overlay flag; `date_strings` (line 129) is recomputed on every render. -/
structure DateRangePickerState where
  dates : List Date
  isOpen : Bool
deriving DecidableEq, Repr

/-- `date_strings` (datepicker.py line 129): each date of the external list
formatted with `date_format`. -/
def DateRangePicker.date_strings (dates : List Date) (date_format : FmtPat) :
    List String :=
  dates.map (fun dt => strftime dt date_format)

/-- `DateRangePicker.set_dates_cast` (datepicker.py lines 132-134): parse
every string of the reported sequence with the caller-configured
`date_format` and write the whole parsed list; a parse failure raises
before the write.  No length check of any kind is performed. -/
def DateRangePicker.set_dates_cast (date_format : FmtPat)
    (values : List String) (st : DateRangePickerState) :
    Except FormatError DateRangePickerState :=
  match parseAll date_format values with
  | none => .error .formatError
  | some date_value => .ok { st with dates := date_value }

/-- The `v.TextField` of `DateRangePicker` (lines 136-138):
`value=" - ".join(date_strings)`, `readonly=True`. -/
def DateRangePicker.input (st : DateRangePickerState) (date_format : FmtPat) :
    TextField :=
  { label := "Test",
    value := some (joinSep (DateRangePicker.date_strings st.dates date_format)),
    readonly := true, style_ := "min-width: 280px;" }

/-- The `Menu` of `DateRangePicker` (lines 139-143). -/
def DateRangePicker.menu : MenuConfig := { close_on_content_click := false }

/-- State of a mounted `InputDateRange`: the external list reference and
the overlay flag; `date_strings` (line 158) is recomputed on every render. -/
structure InputDateRangeState where
  value : List Date
  isOpen : Bool
deriving DecidableEq, Repr

/-- `date_strings` (input_date.py line 158). -/
def InputDateRange.date_strings (dates : List Date) (date_format : FmtPat) :
    List String :=
  dates.map (fun dt => strftime dt date_format)

/-- `InputDateRange.set_dates_cast` (input_date.py lines 162-164): parse
every string with the hard-coded wire pattern `"%Y-%m-%d"` and write the
whole parsed list; no length check of any kind is performed. -/
def InputDateRange.set_dates_cast (date_format : FmtPat)
    (values : List String) (st : InputDateRangeState) :
    Except FormatError InputDateRangeState :=
  match parseAll isoPat values with
  | none => .error .formatError
  | some date_value => .ok { st with value := date_value }

/-- The `v.TextField` of `InputDateRange` (lines 166-173):
`value=" - ".join(date_strings)`, `readonly=True`. -/
def InputDateRange.input (label : String) (st : InputDateRangeState)
    (date_format : FmtPat) : TextField :=
  { label := label,
    value := some (joinSep (InputDateRange.date_strings st.value date_format)),
    readonly := true, style_ := "min-width: 300px;" }

/-- The `Menu` of `InputDateRange` (lines 174-178). -/
def InputDateRange.menu : MenuConfig := { close_on_content_click := false }

/-- The field of a date named by a directive (0 for literals and for the
sub-day directives, which are zero on a pure date). -/
def fieldOf (dt : Date) : FmtTok → Nat
  | .Y => dt.year
  | .m => dt.month
  | .d => dt.day
  | _ => 0

/-- The parse fields produced by a pattern when every directive matches the
corresponding field of `dt`. -/
def applyFields (dt : Date) : FmtPat → ParseFields → ParseFields
  | [], f => f
  | t :: p, f => applyFields dt p (setField t (fieldOf dt t) f)

/-- Does the input begin with the range separator `" - "`? -/
def startsWithSep : List Char → Bool
  | ' ' :: '-' :: ' ' :: _ => true
  | _ => false

/-- Leftmost-first split on the three-character separator `" - "`,
the list-level semantics of splitting the joined range display. -/
def splitDash : List Char → List (List Char)
  | ' ' :: '-' :: ' ' :: rest => [] :: splitDash rest
  | c :: cs => (c :: (splitDash cs).headD []) :: (splitDash cs).tail
  | [] => [[]]

/-- Split a string on `" - "` and return the pieces as strings. -/
def splitRange (s : String) : List String := (splitDash s.data).map String.mk

theorem isDigitC_digitChar : ∀ k, k < 10 → isDigitC (digitChar k) = true := by
  decide

theorem digitVal_digitChar : ∀ k, k < 10 → digitVal (digitChar k) = k := by
  decide

theorem matchField_pad2 (lo hi v : Nat) (h1 : lo ≤ v) (h2 : v ≤ hi)
    (h3 : v ≤ 99) (rest : List Char) :
    matchField lo hi (pad2 v ++ rest) = some (v, rest) := by
  have d1 : v / 10 % 10 < 10 := Nat.mod_lt _ (by omega)
  have d2 : v % 10 < 10 := Nat.mod_lt _ (by omega)
  have hv : digitVal (digitChar (v / 10 % 10)) * 10 + digitVal (digitChar (v % 10)) = v := by
    rw [digitVal_digitChar _ d1, digitVal_digitChar _ d2]
    omega
  simp only [pad2, List.cons_append, List.nil_append, matchField]
  rw [isDigitC_digitChar _ d1, isDigitC_digitChar _ d2, hv]
  simp [h1, h2]

theorem matchY_pad4 (y : Nat) (hy : y ≤ 9999) (rest : List Char) :
    matchY (pad4 y ++ rest) = some (y, rest) := by
  have d1 : y / 1000 % 10 < 10 := Nat.mod_lt _ (by omega)
  have d2 : y / 100 % 10 < 10 := Nat.mod_lt _ (by omega)
  have d3 : y / 10 % 10 < 10 := Nat.mod_lt _ (by omega)
  have d4 : y % 10 < 10 := Nat.mod_lt _ (by omega)
  simp only [pad4, List.cons_append, List.nil_append, matchY]
  rw [isDigitC_digitChar _ d1, isDigitC_digitChar _ d2, isDigitC_digitChar _ d3,
    isDigitC_digitChar _ d4, digitVal_digitChar _ d1, digitVal_digitChar _ d2,
    digitVal_digitChar _ d3, digitVal_digitChar _ d4]
  simp only [Bool.and_self, if_true]
  congr 1
  congr 1
  omega

theorem daysInMonth_le_31 (y m : Nat) : daysInMonth y m ≤ 31 := by
  unfold daysInMonth
  split
  · split <;> omega
  · split <;> omega

theorem Date.valid_bounds (dt : Date) (hv : dt.valid = true) :
    1 ≤ dt.year ∧ dt.year ≤ 9999 ∧ 1 ≤ dt.month ∧ dt.month ≤ 12
      ∧ 1 ≤ dt.day ∧ dt.day ≤ 31 := by
  have h31 := daysInMonth_le_31 dt.year dt.month
  unfold Date.valid at hv
  simp only [Bool.and_eq_true, decide_eq_true_eq] at hv
  omega

theorem matchTok_fmtTok (dt : Date) (hv : dt.valid = true) (t : FmtTok)
    (rest : List Char) :
    matchTok t (fmtTok dt t ++ rest) = some (fieldOf dt t, rest) := by
  obtain ⟨hy1, hy2, hm1, hm2, hd1, hd2⟩ := Date.valid_bounds dt hv
  cases t with
  | lit c => simp [matchTok, fmtTok, fieldOf]
  | Y => simpa [matchTok, fmtTok, fieldOf] using matchY_pad4 dt.year hy2 rest
  | m =>
    simpa [matchTok, fmtTok, fieldOf] using
      matchField_pad2 1 12 dt.month hm1 hm2 (by omega) rest
  | d =>
    simpa [matchTok, fmtTok, fieldOf] using
      matchField_pad2 1 31 dt.day hd1 hd2 (by omega) rest
  | H => simp [matchTok, fmtTok, fieldOf, matchField, isDigitC, digitVal]
  | M => simp [matchTok, fmtTok, fieldOf, matchField, isDigitC, digitVal]
  | S => simp [matchTok, fmtTok, fieldOf, matchField, isDigitC, digitVal]

theorem runParse_fmtChars (dt : Date) (hv : dt.valid = true) :
    ∀ (p : FmtPat) (f : ParseFields),
      runParse p (fmtChars dt p) f = some (applyFields dt p f) := by
  intro p
  induction p with
  | nil => intro f; rfl
  | cons t p ih =>
    intro f
    show runParse (t :: p) (fmtTok dt t ++ fmtChars dt p) f = _
    rw [runParse, matchTok_fmtTok dt hv]
    exact ih _

theorem setField_year_of_ne (t : FmtTok) (v : Nat) (f : ParseFields)
    (h : t ≠ FmtTok.Y) : (setField t v f).year = f.year := by
  cases t <;> simp_all [setField]

theorem setField_month_of_ne (t : FmtTok) (v : Nat) (f : ParseFields)
    (h : t ≠ FmtTok.m) : (setField t v f).month = f.month := by
  cases t <;> simp_all [setField]

theorem setField_day_of_ne (t : FmtTok) (v : Nat) (f : ParseFields)
    (h : t ≠ FmtTok.d) : (setField t v f).day = f.day := by
  cases t <;> simp_all [setField]

theorem applyFields_year_of_not_mem (dt : Date) :
    ∀ (p : FmtPat) (f : ParseFields), FmtTok.Y ∉ p →
      (applyFields dt p f).year = f.year := by
  intro p
  induction p with
  | nil => intro f _; rfl
  | cons t p ih =>
    intro f h
    rw [applyFields, ih _ (by simp at h; exact h.2)]
    exact setField_year_of_ne _ _ _ (by simp at h; exact fun e => h.1 e.symm)

theorem applyFields_month_of_not_mem (dt : Date) :
    ∀ (p : FmtPat) (f : ParseFields), FmtTok.m ∉ p →
      (applyFields dt p f).month = f.month := by
  intro p
  induction p with
  | nil => intro f _; rfl
  | cons t p ih =>
    intro f h
    rw [applyFields, ih _ (by simp at h; exact h.2)]
    exact setField_month_of_ne _ _ _ (by simp at h; exact fun e => h.1 e.symm)

theorem applyFields_day_of_not_mem (dt : Date) :
    ∀ (p : FmtPat) (f : ParseFields), FmtTok.d ∉ p →
      (applyFields dt p f).day = f.day := by
  intro p
  induction p with
  | nil => intro f _; rfl
  | cons t p ih =>
    intro f h
    rw [applyFields, ih _ (by simp at h; exact h.2)]
    exact setField_day_of_ne _ _ _ (by simp at h; exact fun e => h.1 e.symm)

theorem applyFields_year_of_mem (dt : Date) :
    ∀ (p : FmtPat) (f : ParseFields), FmtTok.Y ∈ p →
      (applyFields dt p f).year = dt.year := by
  intro p
  induction p with
  | nil => intro f h; cases h
  | cons t p ih =>
    intro f h
    by_cases hp : FmtTok.Y ∈ p
    · exact ih _ hp
    · have ht : t = FmtTok.Y := by
        rcases List.mem_cons.mp h with h1 | h1
        · exact h1.symm
        · exact absurd h1 hp
      subst ht
      rw [applyFields, applyFields_year_of_not_mem dt p _ hp]
      rfl

theorem applyFields_month_of_mem (dt : Date) :
    ∀ (p : FmtPat) (f : ParseFields), FmtTok.m ∈ p →
      (applyFields dt p f).month = dt.month := by
  intro p
  induction p with
  | nil => intro f h; cases h
  | cons t p ih =>
    intro f h
    by_cases hp : FmtTok.m ∈ p
    · exact ih _ hp
    · have ht : t = FmtTok.m := by
        rcases List.mem_cons.mp h with h1 | h1
        · exact h1.symm
        · exact absurd h1 hp
      subst ht
      rw [applyFields, applyFields_month_of_not_mem dt p _ hp]
      rfl

theorem applyFields_day_of_mem (dt : Date) :
    ∀ (p : FmtPat) (f : ParseFields), FmtTok.d ∈ p →
      (applyFields dt p f).day = dt.day := by
  intro p
  induction p with
  | nil => intro f h; cases h
  | cons t p ih =>
    intro f h
    by_cases hp : FmtTok.d ∈ p
    · exact ih _ hp
    · have ht : t = FmtTok.d := by
        rcases List.mem_cons.mp h with h1 | h1
        · exact h1.symm
        · exact absurd h1 hp
      subst ht
      rw [applyFields, applyFields_day_of_not_mem dt p _ hp]
      rfl

/-- Format/parse round trip for every valid date and every pattern whose
directives include a year, a month and a day. -/
theorem strptime_strftime (dt : Date) (p : FmtPat) (hv : dt.valid = true)
    (hY : FmtTok.Y ∈ p) (hm : FmtTok.m ∈ p) (hd : FmtTok.d ∈ p) :
    strptime (strftime dt p) p = some dt := by
  unfold strptime strftime
  have hs : (String.mk (fmtChars dt p)).data = fmtChars dt p := rfl
  rw [hs, runParse_fmtChars dt hv p]
  have h1 := applyFields_year_of_mem dt p ⟨1900, 1, 1⟩ hY
  have h2 := applyFields_month_of_mem dt p ⟨1900, 1, 1⟩ hm
  have h3 := applyFields_day_of_mem dt p ⟨1900, 1, 1⟩ hd
  simp only [h1, h2, h3]
  cases dt
  simp_all

theorem strptime_valid (s : String) (p : FmtPat) (dt : Date)
    (h : strptime s p = some dt) : dt.valid = true := by
  unfold strptime at h
  rcases hr : runParse p s.data ⟨1900, 1, 1⟩ with _ | f
  · rw [hr] at h; cases h
  · rw [hr] at h
    simp only at h
    split at h
    · cases h
      assumption
    · cases h

theorem parseAll_eq_some : ∀ (p : FmtPat) (vs : List String) (ds : List Date),
    parseAll p vs = some ds ↔ vs.map (fun s => strptime s p) = ds.map some := by
  intro p vs
  induction vs with
  | nil =>
    intro ds
    cases ds <;> simp [parseAll]
  | cons s vs ih =>
    intro ds
    rcases hs : strptime s p with _ | dt
    · simp only [parseAll, hs, List.map_cons]
      cases ds <;> simp
    · simp only [parseAll, hs, List.map_cons, Option.map_eq_some']
      cases ds with
      | nil => simp
      | cons d0 ds =>
        simp only [List.map_cons]
        constructor
        · rintro ⟨ds', hds', heq⟩
          injection heq with h1 h2
          subst h1
          subst h2
          simp [(ih ds').mp hds']
        · intro h
          injection h with h1 h2
          injection h1 with h1
          subst h1
          exact ⟨ds, (ih ds).mpr h2, rfl⟩

theorem parseAll_length (p : FmtPat) (vs : List String) (ds : List Date)
    (h : parseAll p vs = some ds) : ds.length = vs.length := by
  have hm := (parseAll_eq_some p vs ds).mp h
  have hl : (vs.map (fun s => strptime s p)).length = (ds.map some).length := by
    rw [hm]
  simpa using hl.symm

theorem parseAll_none_of_mem (p : FmtPat) (s : String) :
    ∀ vs : List String, s ∈ vs → strptime s p = none → parseAll p vs = none := by
  intro vs
  induction vs with
  | nil => intro h; cases h
  | cons a vs ih =>
    intro hmem hnone
    rcases List.mem_cons.mp hmem with h1 | h1
    · subst h1
      simp [parseAll, hnone]
    · rcases ha : strptime a p with _ | dt
      · simp [parseAll, ha]
      · simp [parseAll, ha, ih h1 hnone]

theorem parseAll_valid (p : FmtPat) :
    ∀ (vs : List String) (ds : List Date), parseAll p vs = some ds →
      ∀ dt ∈ ds, dt.valid = true := by
  intro vs
  induction vs with
  | nil =>
    intro ds h dt hdt
    simp [parseAll] at h
    subst h
    cases hdt
  | cons s vs ih =>
    intro ds h dt hdt
    rcases hs : strptime s p with _ | d0
    · simp [parseAll, hs] at h
    · simp only [parseAll, hs, Option.map_eq_some'] at h
      rcases h with ⟨ds', hds', h2⟩
      subst h2
      rcases List.mem_cons.mp hdt with h1 | h1
      · subst h1
        exact strptime_valid s p dt hs
      · exact ih ds' hds' dt h1

theorem splitDash_sep (rest : List Char) :
    splitDash (' ' :: '-' :: ' ' :: rest) = [] :: splitDash rest := rfl

theorem splitDash_cons (c : Char) (cs : List Char)
    (h : startsWithSep (c :: cs) = false) :
    splitDash (c :: cs) = (c :: (splitDash cs).headD []) :: (splitDash cs).tail := by
  rw [splitDash.eq_def]
  split
  · rename_i rest heq
    rw [show c :: cs = ' ' :: '-' :: ' ' :: rest from heq] at h
    simp [startsWithSep] at h
  · rename_i c' cs' heq
    injection heq with h1 h2
    subst h1
    subst h2
    rfl
  · rename_i heq
    cases heq

theorem splitDash_no_sep : ∀ f : List Char,
    (∀ i, i < f.length → startsWithSep (f.drop i) = false) →
    splitDash f = [f] := by
  intro f
  induction f with
  | nil => intro _; rfl
  | cons c cs ih =>
    intro h
    have h0 : startsWithSep (c :: cs) = false := by simpa using h 0 (by simp)
    rw [splitDash_cons c cs h0]
    rw [ih (fun i hi => by simpa using h (i + 1) (by simpa using hi))]
    rfl

theorem splitDash_append (f2 : List Char) :
    ∀ f1 : List Char,
      (∀ i, i < f1.length →
        startsWithSep ((f1 ++ (' ' :: '-' :: ' ' :: f2)).drop i) = false) →
      splitDash (f1 ++ (' ' :: '-' :: ' ' :: f2)) = f1 :: splitDash f2 := by
  intro f1
  induction f1 with
  | nil => intro _; simpa using splitDash_sep f2
  | cons c cs ih =>
    intro h
    have h0 : startsWithSep (c :: (cs ++ (' ' :: '-' :: ' ' :: f2))) = false := by
      simpa using h 0 (by simp)
    rw [List.cons_append, splitDash_cons _ _ h0]
    rw [ih (fun i hi => by simpa using h (i + 1) (by simpa using hi))]
    rfl

theorem string_data_append (s t : String) : (s ++ t).data = s.data ++ t.data := rfl

theorem sep_data : (" - " : String).data = [' ', '-', ' '] := rfl

theorem datePicker_set_ok (date_format : FmtPat) (s : String)
    (dt : Date) (st : DatePickerState) :
    DatePicker.set_date_cast date_format s st = .ok { st with date := some dt }
      ↔ strptime s date_format = some dt := by
  rcases hp : strptime s date_format with _ | d <;>
    rw [DatePicker.set_date_cast, hp]
  · simp
  · constructor
    · intro h
      injection h with h
      have hd : ({ st with date := some d } : DatePickerState).date
          = ({ st with date := some dt } : DatePickerState).date := by rw [h]
      simpa using hd
    · intro h
      injection h with h
      subst h
      rfl

theorem inputDate_set_ok (date_format : FmtPat) (s : String)
    (dt : Date) (st : InputDateState) :
    InputDate.set_date_cast date_format s st
        = .ok { st with
            value := some dt,
            dateStr := st.dateStr.set (some (strftime dt date_format)) }
      ↔ strptime s isoPat = some dt := by
  rcases hp : strptime s isoPat with _ | d <;>
    rw [InputDate.set_date_cast, hp]
  · simp
  · constructor
    · intro h
      injection h with h
      have hd : ({ st with
              value := some d,
              dateStr := st.dateStr.set
                (InputDate.str_and_format (some d) date_format) }
              : InputDateState).value
          = ({ st with
              value := some dt,
              dateStr := st.dateStr.set (some (strftime dt date_format)) }
              : InputDateState).value := by rw [h]
      simpa using hd
    · intro h
      injection h with h
      subst h
      rfl

theorem dateRangePicker_set_ok (date_format : FmtPat)
    (values : List String) (ds : List Date) (st : DateRangePickerState) :
    DateRangePicker.set_dates_cast date_format values st
        = .ok { st with dates := ds }
      ↔ parseAll date_format values = some ds := by
  rcases hp : parseAll date_format values with _ | ds' <;>
    rw [DateRangePicker.set_dates_cast, hp]
  · simp
  · constructor
    · intro h
      injection h with h
      have hd : ({ st with dates := ds' } : DateRangePickerState).dates
          = ({ st with dates := ds } : DateRangePickerState).dates := by rw [h]
      simpa using hd
    · intro h
      injection h with h
      subst h
      rfl

theorem inputDateRange_set_ok (date_format : FmtPat)
    (values : List String) (ds : List Date) (st : InputDateRangeState) :
    InputDateRange.set_dates_cast date_format values st
        = .ok { st with value := ds }
      ↔ parseAll isoPat values = some ds := by
  rcases hp : parseAll isoPat values with _ | ds' <;>
    rw [InputDateRange.set_dates_cast, hp]
  · simp
  · constructor
    · intro h
      injection h with h
      have hd : ({ st with value := ds' } : InputDateRangeState).value
          = ({ st with value := ds } : InputDateRangeState).value := by rw [h]
      simpa using hd
    · intro h
      injection h with h
      subst h
      rfl

/-- C1: in every one of the four Binder components, an edit string (from
the text field or the calendar widget) that does not match the expected
pattern or encodes an invalid calendar date makes the edit handler raise a
`FormatError`, and the external date/range reference and the displayed
string after the failed attempt equal their values immediately before the
attempt: the parse happens before any write, so failure prevents the
write. -/
theorem claim_c1 (date_format : FmtPat) (s : String) (values : List String)
    (stD : DatePickerState) (stI : InputDateState)
    (stR : DateRangePickerState) (stIR : InputDateRangeState) :
    (strptime s date_format = none →
      DatePicker.set_date_cast date_format s stD = .error .formatError
        ∧ afterEvent stD (DatePicker.set_date_cast date_format s stD) = stD)
    ∧ (strptime s isoPat = none →
      InputDate.set_date_cast date_format s stI = .error .formatError
        ∧ afterEvent stI (InputDate.set_date_cast date_format s stI) = stI)
    ∧ (s ∈ values → strptime s date_format = none →
      DateRangePicker.set_dates_cast date_format values stR = .error .formatError
        ∧ afterEvent stR
            (DateRangePicker.set_dates_cast date_format values stR) = stR)
    ∧ (s ∈ values → strptime s isoPat = none →
      InputDateRange.set_dates_cast date_format values stIR = .error .formatError
        ∧ afterEvent stIR
            (InputDateRange.set_dates_cast date_format values stIR) = stIR) := by
  refine ⟨?_, ?_, ?_, ?_⟩
  · intro h
    unfold DatePicker.set_date_cast
    rw [h]
    exact ⟨rfl, rfl⟩
  · intro h
    unfold InputDate.set_date_cast
    rw [h]
    exact ⟨rfl, rfl⟩
  · intro hmem hnone
    unfold DateRangePicker.set_dates_cast
    rw [parseAll_none_of_mem date_format s values hmem hnone]
    exact ⟨rfl, rfl⟩
  · intro hmem hnone
    unfold InputDateRange.set_dates_cast
    rw [parseAll_none_of_mem isoPat s values hmem hnone]
    exact ⟨rfl, rfl⟩

theorem claim_c1_witness :
    strptime "not-a-date" slashPat = none
    ∧ strptime "not-a-date" isoPat = none
    ∧ ("not-a-date" : String) ∈ ["not-a-date"]
    ∧ DatePicker.set_date_cast slashPat "not-a-date"
        ⟨some ⟨2024, 1, 15⟩, false⟩ = .error .formatError
    ∧ InputDate.set_date_cast slashPat "not-a-date"
        (InputDate.mount slashPat (some ⟨2024, 1, 15⟩) false) = .error .formatError
    ∧ DateRangePicker.set_dates_cast slashPat ["not-a-date"]
        ⟨[⟨2024, 1, 15⟩], false⟩ = .error .formatError
    ∧ InputDateRange.set_dates_cast slashPat ["not-a-date"]
        ⟨[⟨2024, 1, 15⟩], false⟩ = .error .formatError := by
  have h := claim_c1 slashPat "not-a-date" ["not-a-date"]
    ⟨some ⟨2024, 1, 15⟩, false⟩ (InputDate.mount slashPat (some ⟨2024, 1, 15⟩) false)
    ⟨[⟨2024, 1, 15⟩], false⟩ ⟨[⟨2024, 1, 15⟩], false⟩
  refine ⟨by decide, by decide, by decide, ?_, ?_, ?_, ?_⟩
  · exact (h.1 (by decide)).1
  · exact (h.2.1 (by decide)).1
  · exact (h.2.2.1 (by decide) (by decide)).1
  · exact (h.2.2.2 (by decide) (by decide)).1

/-- C3: the pattern used to parse edits reported by the calendar widget is
the canonical `YYYY-MM-DD` form in exactly two of the four components
(`InputDate`, `InputDateRange`) and the caller-configured `date_format` in
the other two (`DatePicker`, `DateRangePicker`), while the pattern used to
render the displayed string is the caller-configured `date_format` in all
four (visible in the `date_str` update of the `InputDate` success state and
in the display equalities). -/
theorem claim_c3 (date_format : FmtPat) (s : String) (dt : Date)
    (values : List String) (ds : List Date)
    (stD : DatePickerState) (stI : InputDateState)
    (stR : DateRangePickerState) (stIR : InputDateRangeState) :
    (DatePicker.set_date_cast date_format s stD = .ok { stD with date := some dt }
      ↔ strptime s date_format = some dt)
    ∧ (InputDate.set_date_cast date_format s stI
        = .ok { stI with
            value := some dt,
            dateStr := stI.dateStr.set (some (strftime dt date_format)) }
      ↔ strptime s isoPat = some dt)
    ∧ (DateRangePicker.set_dates_cast date_format values stR
        = .ok { stR with dates := ds }
      ↔ parseAll date_format values = some ds)
    ∧ (InputDateRange.set_dates_cast date_format values stIR
        = .ok { stIR with value := ds }
      ↔ parseAll isoPat values = some ds)
    ∧ DatePicker.date_str (some dt) date_format = some (strftime dt date_format)
    ∧ InputDate.str_and_format (some dt) date_format
        = some (strftime dt date_format)
    ∧ DateRangePicker.date_strings ds date_format
        = ds.map (fun x => strftime x date_format)
    ∧ InputDateRange.date_strings ds date_format
        = ds.map (fun x => strftime x date_format) :=
  ⟨datePicker_set_ok date_format s dt stD,
    inputDate_set_ok date_format s dt stI,
    dateRangePicker_set_ok date_format values ds stR,
    inputDateRange_set_ok date_format values ds stIR,
    rfl, rfl, rfl, rfl⟩

theorem claim_c3_witness :
    InputDate.set_date_cast slashPat "2024-02-20"
        (InputDate.mount slashPat (some ⟨2024, 1, 15⟩) false)
      = .ok { InputDate.mount slashPat (some ⟨2024, 1, 15⟩) false with
          value := some ⟨2024, 2, 20⟩,
          dateStr := (InputDate.mount slashPat
              (some ⟨2024, 1, 15⟩) false).dateStr.set
            (some (strftime ⟨2024, 2, 20⟩ slashPat)) }
    ∧ DatePicker.set_date_cast slashPat "2024/02/20"
        ⟨some ⟨2024, 1, 15⟩, false⟩ = .ok ⟨some ⟨2024, 2, 20⟩, false⟩ := by
  constructor
  · exact (claim_c3 slashPat "2024-02-20" ⟨2024, 2, 20⟩ [] []
      ⟨none, false⟩ (InputDate.mount slashPat (some ⟨2024, 1, 15⟩) false)
      ⟨[], false⟩ ⟨[], false⟩).2.1.mpr (by decide)
  · exact (claim_c3 slashPat "2024/02/20" ⟨2024, 2, 20⟩ [] []
      ⟨some ⟨2024, 1, 15⟩, false⟩
      (InputDate.mount slashPat (some ⟨2024, 1, 15⟩) false)
      ⟨[], false⟩ ⟨[], false⟩).1.mpr (by decide)

/-- C6: in every component a value report from the calendar widget never
changes the overlay open flag (the transition is Open to Open): the widget
edit handlers do not write the open flag, whether they succeed or raise,
and every overlay is configured with `close_on_content_click=False`, so
selecting a date inside the overlay never dismisses it. -/
theorem claim_c6 (date_format : FmtPat) (s : String) (values : List String)
    (stD : DatePickerState) (stI : InputDateState)
    (stR : DateRangePickerState) (stIR : InputDateRangeState) :
    DatePicker.menu.close_on_content_click = false
    ∧ InputDate.menu.close_on_content_click = false
    ∧ DateRangePicker.menu.close_on_content_click = false
    ∧ InputDateRange.menu.close_on_content_click = false
    ∧ (afterEvent stD (DatePicker.set_date_cast date_format s stD)).isOpen
        = stD.isOpen
    ∧ (afterEvent stI (InputDate.set_date_cast date_format s stI)).isOpen
        = stI.isOpen
    ∧ (afterEvent stR
        (DateRangePicker.set_dates_cast date_format values stR)).isOpen
        = stR.isOpen
    ∧ (afterEvent stIR
        (InputDateRange.set_dates_cast date_format values stIR)).isOpen
        = stIR.isOpen := by
  refine ⟨rfl, rfl, rfl, rfl, ?_, ?_, ?_, ?_⟩
  · unfold DatePicker.set_date_cast
    rcases strptime s date_format with _ | d <;> rfl
  · unfold InputDate.set_date_cast
    rcases strptime s isoPat with _ | d <;> rfl
  · unfold DateRangePicker.set_dates_cast
    rcases parseAll date_format values with _ | ds <;> rfl
  · unfold InputDateRange.set_dates_cast
    rcases parseAll isoPat values with _ | ds <;> rfl

/-- C2 counterexample: the pattern consisting of the single directive `%Y`
has no sub-day precision, yet formatting the valid date 2024-05-05 with it
and re-parsing yields 2024-01-01 (strptime defaults the missing month and
day), not the original date: the claim's quantification over all patterns
without sub-day precision fails. -/
theorem claim_c2_cex :
    patHasSubDay [FmtTok.Y] = false
    ∧ (⟨2024, 5, 5⟩ : Date).valid = true
    ∧ strptime (strftime ⟨2024, 5, 5⟩ [FmtTok.Y]) [FmtTok.Y] = some ⟨2024, 1, 1⟩
    ∧ (⟨2024, 1, 1⟩ : Date) ≠ ⟨2024, 5, 5⟩ :=
  ⟨by decide, by decide, by decide, by decide⟩

/-- C2 (amended): for every valid date and every pattern without sub-day
precision that contains a year, a month and a day directive, parsing the
string produced by formatting the date yields the date back; in
particular, in every component, formatting the external date reference
immediately after a successful write with the display pattern and
re-parsing it yields a date equal to the one that was written. -/
theorem claim_c2_amended (p : FmtPat) (hsub : patHasSubDay p = false)
    (hY : FmtTok.Y ∈ p) (hm : FmtTok.m ∈ p) (hd : FmtTok.d ∈ p) :
    (∀ dt : Date, dt.valid = true → strptime (strftime dt p) p = some dt)
    ∧ (∀ (s : String) (st st' : DatePickerState),
        DatePicker.set_date_cast p s st = .ok st' →
        ∀ dt, st'.date = some dt → strptime (strftime dt p) p = some dt)
    ∧ (∀ (s : String) (st st' : InputDateState),
        InputDate.set_date_cast p s st = .ok st' →
        ∀ dt, st'.value = some dt → strptime (strftime dt p) p = some dt)
    ∧ (∀ (values : List String) (st st' : DateRangePickerState),
        DateRangePicker.set_dates_cast p values st = .ok st' →
        ∀ dt ∈ st'.dates, strptime (strftime dt p) p = some dt)
    ∧ (∀ (values : List String) (st st' : InputDateRangeState),
        InputDateRange.set_dates_cast p values st = .ok st' →
        ∀ dt ∈ st'.value, strptime (strftime dt p) p = some dt) := by
  refine ⟨fun dt hv => strptime_strftime dt p hv hY hm hd, ?_, ?_, ?_, ?_⟩
  · intro s st st' h dt hdt
    unfold DatePicker.set_date_cast at h
    rcases hp : strptime s p with _ | d
    · rw [hp] at h; cases h
    · rw [hp] at h
      injection h with h
      subst h
      simp only at hdt
      injection hdt with hdt
      subst hdt
      exact strptime_strftime d p (strptime_valid s p d hp) hY hm hd
  · intro s st st' h dt hdt
    unfold InputDate.set_date_cast at h
    rcases hp : strptime s isoPat with _ | d
    · rw [hp] at h; cases h
    · rw [hp] at h
      injection h with h
      subst h
      simp only at hdt
      injection hdt with hdt
      subst hdt
      exact strptime_strftime d p (strptime_valid s isoPat d hp) hY hm hd
  · intro values st st' h dt hdt
    unfold DateRangePicker.set_dates_cast at h
    rcases hp : parseAll p values with _ | ds
    · rw [hp] at h; cases h
    · rw [hp] at h
      injection h with h
      subst h
      simp only at hdt
      exact strptime_strftime dt p (parseAll_valid p values ds hp dt hdt) hY hm hd
  · intro values st st' h dt hdt
    unfold InputDateRange.set_dates_cast at h
    rcases hp : parseAll isoPat values with _ | ds
    · rw [hp] at h; cases h
    · rw [hp] at h
      injection h with h
      subst h
      simp only at hdt
      exact strptime_strftime dt p (parseAll_valid isoPat values ds hp dt hdt)
        hY hm hd

theorem claim_c2_witness :
    strptime (strftime ⟨2024, 2, 29⟩ isoPat) isoPat = some ⟨2024, 2, 29⟩ :=
  (claim_c2_amended isoPat (by decide) (by decide) (by decide) (by decide)).1
    ⟨2024, 2, 29⟩ (by decide)

/-- C4: in every mounted Binder instance the displayed string is derived
from the external reference: `DatePicker`, `DateRangePicker` and
`InputDateRange` recompute it on every render directly from the reference,
and `InputDate`'s `date_str` cell re-synchronizes on the render that
follows any change to the external reference — whether made through this
instance's edit handler or externally — so the displayed string equals the
new external value formatted with the display pattern. -/
theorem claim_c4 (date_format : FmtPat) (st : InputDateState)
    (hval : st.dateStr.value = InputDate.str_and_format st.value date_format)
    (harg : st.dateStr.lastArg = InputDate.str_and_format st.value date_format) :
    (∀ v : Option Date,
      (InputDate.render date_format (InputDate.setExternal v st)).dateStr.value
        = InputDate.str_and_format v date_format)
    ∧ (∀ v : Option Date,
      (InputDate.render date_format (InputDate.setExternal v st)).dateStr.lastArg
        = InputDate.str_and_format v date_format)
    ∧ (∀ (s : String) (st' : InputDateState),
        InputDate.set_date_cast date_format s st = .ok st' →
        st'.dateStr.value = InputDate.str_and_format st'.value date_format)
    ∧ (∀ (d : Option Date) (b : Bool),
        (DatePicker.input ⟨d, b⟩ date_format).value
          = Option.map (fun dt => strftime dt date_format) d)
    ∧ (∀ (ds : List Date) (b : Bool),
        (DateRangePicker.input ⟨ds, b⟩ date_format).value
          = some (joinSep (ds.map (fun dt => strftime dt date_format))))
    ∧ (∀ (label : String) (ds : List Date) (b : Bool),
        (InputDateRange.input label ⟨ds, b⟩ date_format).value
          = some (joinSep (ds.map (fun dt => strftime dt date_format)))) := by
  refine ⟨?_, ?_, ?_, fun d b => rfl, fun ds b => rfl, fun label ds b => rfl⟩
  · intro v
    unfold InputDate.render InputDate.setExternal useReactiveStep
    simp only
    split
    · rename_i heq
      rw [harg] at heq
      exact hval.trans heq.symm
    · rfl
  · intro v
    unfold InputDate.render InputDate.setExternal useReactiveStep
    simp only
    split
    · rename_i heq
      rw [harg] at heq
      exact harg.trans heq.symm
    · rfl
  · intro s st' h
    unfold InputDate.set_date_cast at h
    rcases hp : strptime s isoPat with _ | d
    · rw [hp] at h; cases h
    · rw [hp] at h
      injection h with h
      subst h
      rfl

theorem claim_c4_witness :
    (InputDate.render slashPat
        (InputDate.setExternal (some ⟨2024, 2, 20⟩)
          (InputDate.mount slashPat (some ⟨2024, 1, 15⟩) false))).dateStr.value
      = some "2024/02/20" := by
  have h := (claim_c4 slashPat
    (InputDate.mount slashPat (some ⟨2024, 1, 15⟩) false)
    (by decide) (by decide)).1 (some ⟨2024, 2, 20⟩)
  rw [h]
  decide

/-- C5 counterexample: for the pattern `"%Y - %m - %d"` (which itself
contains the separator text), the joined range display for 2024-05-05 and
2024-06-01 splits on `" - "` into six pieces, so splitting and parsing the
halves does not yield the two dates: the claim's quantification over every
pattern fails. -/
theorem claim_c5_cex :
    (splitRange (strftime ⟨2024, 5, 5⟩
          [FmtTok.Y, FmtTok.lit ' ', FmtTok.lit '-', FmtTok.lit ' ', FmtTok.m,
            FmtTok.lit ' ', FmtTok.lit '-', FmtTok.lit ' ', FmtTok.d]
        ++ " - " ++ strftime ⟨2024, 6, 1⟩
          [FmtTok.Y, FmtTok.lit ' ', FmtTok.lit '-', FmtTok.lit ' ', FmtTok.m,
            FmtTok.lit ' ', FmtTok.lit '-', FmtTok.lit ' ', FmtTok.d])).map
        (fun piece => strptime piece
          [FmtTok.Y, FmtTok.lit ' ', FmtTok.lit '-', FmtTok.lit ' ', FmtTok.m,
            FmtTok.lit ' ', FmtTok.lit '-', FmtTok.lit ' ', FmtTok.d])
      ≠ [some ⟨2024, 5, 5⟩, some ⟨2024, 6, 1⟩] := by decide

/-- C5 (amended): for every pair of valid dates and every pattern that
contains year, month and day directives, the range components' displayed
string for `[d1, d2]` equals `format(d1, p) ++ " - " ++ format(d2, p)`;
and provided the separator `" - "` occurs in that joined string only at
the inserted junction (no occurrence starts inside the first formatted
half and none occurs in the second), splitting on `" - "` and parsing
each half with the pattern yields `[d1, d2]`. -/
theorem claim_c5_amended (p : FmtPat) (d1 d2 : Date) (b : Bool) (label : String)
    (h1 : d1.valid = true) (h2 : d2.valid = true)
    (hY : FmtTok.Y ∈ p) (hm : FmtTok.m ∈ p) (hd : FmtTok.d ∈ p)
    (hocc1 : ∀ i, i < (fmtChars d1 p).length →
      startsWithSep
        ((fmtChars d1 p ++ (' ' :: '-' :: ' ' :: fmtChars d2 p)).drop i) = false)
    (hocc2 : ∀ i, i < (fmtChars d2 p).length →
      startsWithSep ((fmtChars d2 p).drop i) = false) :
    (DateRangePicker.input ⟨[d1, d2], b⟩ p).value
        = some (strftime d1 p ++ " - " ++ strftime d2 p)
    ∧ (InputDateRange.input label ⟨[d1, d2], b⟩ p).value
        = some (strftime d1 p ++ " - " ++ strftime d2 p)
    ∧ (splitRange (strftime d1 p ++ " - " ++ strftime d2 p)).map
        (fun piece => strptime piece p) = [some d1, some d2] := by
  refine ⟨rfl, rfl, ?_⟩
  have hdata : (strftime d1 p ++ " - " ++ strftime d2 p).data
      = fmtChars d1 p ++ (' ' :: '-' :: ' ' :: fmtChars d2 p) := by
    rw [string_data_append, string_data_append, sep_data]
    rw [List.append_assoc]
    rfl
  unfold splitRange
  rw [hdata, splitDash_append (fmtChars d2 p) (fmtChars d1 p) hocc1,
    splitDash_no_sep (fmtChars d2 p) hocc2]
  simp only [List.map_cons, List.map_nil]
  have r1 : strptime (String.mk (fmtChars d1 p)) p = some d1 :=
    strptime_strftime d1 p h1 hY hm hd
  have r2 : strptime (String.mk (fmtChars d2 p)) p = some d2 :=
    strptime_strftime d2 p h2 hY hm hd
  rw [r1, r2]

theorem claim_c5_witness :
    (splitRange (strftime ⟨2024, 3, 1⟩ isoPat ++ " - "
        ++ strftime ⟨2024, 3, 10⟩ isoPat)).map
      (fun piece => strptime piece isoPat)
      = [some ⟨2024, 3, 1⟩, some ⟨2024, 3, 10⟩] :=
  (claim_c5_amended isoPat ⟨2024, 3, 1⟩ ⟨2024, 3, 10⟩ false "lbl"
    (by decide) (by decide) (by decide) (by decide) (by decide)
    (by decide) (by decide)).2.2

/-- C7 counterexample: with an absent external date, `DatePicker`'s
`date_str` (and `InputDate`'s `str_and_format`) produce the absent value
`None`, not the empty string, refuting the claim for the single-date
components. -/
theorem claim_c7_cex :
    DatePicker.date_str none isoPat ≠ some ""
    ∧ InputDate.str_and_format none isoPat ≠ some "" :=
  ⟨by decide, by decide⟩

/-- C7 (amended): when the external date value is absent, the textual
representation produced for the text field is the absent value `None` in
the two single-date components, and the empty string (the join of an empty
list of formatted dates) in the two range components, for every pattern. -/
theorem claim_c7_amended (p : FmtPat) :
    DatePicker.date_str none p = none
    ∧ InputDate.str_and_format none p = none
    ∧ joinSep (DateRangePicker.date_strings [] p) = ""
    ∧ joinSep (InputDateRange.date_strings [] p) = "" :=
  ⟨rfl, rfl, rfl, rfl⟩

/-- C8 counterexample: the range-confirmation handler, given a sequence of
length 3, raises nothing and writes all three parsed dates to the external
range reference, refuting the claimed `RangeArityError` defensive check
(no such check exists in the code). -/
theorem claim_c8_cex :
    DateRangePicker.set_dates_cast isoPat
        ["2024-03-01", "2024-03-02", "2024-03-03"] ⟨[], false⟩
      = .ok ⟨[⟨2024, 3, 1⟩, ⟨2024, 3, 2⟩, ⟨2024, 3, 3⟩], false⟩ := by decide

/-- C8 (amended): the range-confirmation handlers perform no arity check:
a widget-reported sequence of any length whose elements all parse is
written in full (the written list has the same length as the received
sequence), and no `RangeArityError` exists. -/
theorem claim_c8_amended (date_format : FmtPat) (values : List String)
    (ds : List Date) (stR : DateRangePickerState) (stIR : InputDateRangeState) :
    (parseAll date_format values = some ds →
      DateRangePicker.set_dates_cast date_format values stR
          = .ok { stR with dates := ds }
        ∧ ds.length = values.length)
    ∧ (parseAll isoPat values = some ds →
      InputDateRange.set_dates_cast date_format values stIR
          = .ok { stIR with value := ds }
        ∧ ds.length = values.length) := by
  constructor
  · intro h
    exact ⟨(dateRangePicker_set_ok date_format values ds stR).mpr h,
      parseAll_length date_format values ds h⟩
  · intro h
    exact ⟨(inputDateRange_set_ok date_format values ds stIR).mpr h,
      parseAll_length isoPat values ds h⟩

theorem claim_c8_witness :
    InputDateRange.set_dates_cast slashPat
        ["2024-03-01", "2024-03-02", "2024-03-03"] ⟨[], false⟩
      = .ok ⟨[⟨2024, 3, 1⟩, ⟨2024, 3, 2⟩, ⟨2024, 3, 3⟩], false⟩
    ∧ ([⟨2024, 3, 1⟩, ⟨2024, 3, 2⟩, ⟨2024, 3, 3⟩] : List Date).length
        = (["2024-03-01", "2024-03-02", "2024-03-03"] : List String).length :=
  (claim_c8_amended slashPat ["2024-03-01", "2024-03-02", "2024-03-03"]
    [⟨2024, 3, 1⟩, ⟨2024, 3, 2⟩, ⟨2024, 3, 3⟩] ⟨[], false⟩ ⟨[], false⟩).2
    (by decide)

/-- C9 counterexample: the text field of the single-date `DatePicker` is
configured `readonly=True` at this concrete state, refuting the claim that
both single-date components are editable. -/
theorem claim_c9_cex :
    (DatePicker.input ⟨some ⟨2024, 1, 15⟩, false⟩ isoPat).readonly = true := rfl

/-- C9 (amended): the text-field display is configured read-only in the two
range components and additionally in the single-date `DatePicker`; only
`InputDate` leaves the field editable. -/
theorem claim_c9_amended (date_format : FmtPat) (label : String)
    (stD : DatePickerState) (stI : InputDateState)
    (stR : DateRangePickerState) (stIR : InputDateRangeState) :
    (DatePicker.input stD date_format).readonly = true
    ∧ (InputDate.input label stI).readonly = false
    ∧ (DateRangePicker.input stR date_format).readonly = true
    ∧ (InputDateRange.input label stIR date_format).readonly = true :=
  ⟨rfl, rfl, rfl, rfl⟩

/-- C10: the range edit handlers and the range formatter preserve arity
and order exactly, with no check, sort or padding: an external range of
length 0 displays as the empty string, a range of length 1 displays as the
single formatted date with no separator, and a widget-reported sequence is
written to the external reference exactly when every element parses, as
the list of parsed dates in the received order. -/
theorem claim_c10 (date_format : FmtPat) (dt : Date) (b : Bool) (label : String)
    (values : List String) (ds : List Date)
    (stR : DateRangePickerState) (stIR : InputDateRangeState) :
    (DateRangePicker.input ⟨[], b⟩ date_format).value = some ""
    ∧ (DateRangePicker.input ⟨[dt], b⟩ date_format).value
        = some (strftime dt date_format)
    ∧ (InputDateRange.input label ⟨[], b⟩ date_format).value = some ""
    ∧ (InputDateRange.input label ⟨[dt], b⟩ date_format).value
        = some (strftime dt date_format)
    ∧ (DateRangePicker.set_dates_cast date_format values stR
          = .ok { stR with dates := ds }
        ↔ values.map (fun s => strptime s date_format) = ds.map some)
    ∧ (InputDateRange.set_dates_cast date_format values stIR
          = .ok { stIR with value := ds }
        ↔ values.map (fun s => strptime s isoPat) = ds.map some) :=
  ⟨rfl, rfl, rfl, rfl,
    (dateRangePicker_set_ok date_format values ds stR).trans
      (parseAll_eq_some date_format values ds),
    (inputDateRange_set_ok date_format values ds stIR).trans
      (parseAll_eq_some isoPat values ds)⟩
